import Mathlib

/-
Verification of the owwatcher watch-and-detect engine.

The definitions below are a shallow embedding of `src/owwatcher/owwatcher.py`
(the module-level implementation, which is the one present in the sources).
Python strings are Lean `String`s; the ambient filesystem (os.stat,
os.path.isdir) is passed in explicitly as oracle functions; Python
exceptions become `Except` values; calls to the two loggers are recorded as
explicit lists of `LogEntry` values.  Where the specification describes
parts of the repository that are not among the sources (the class-based
PermissionChecker with an arbitrary mask, and the PathTranslator), those
parts are modelled from the specification text and are marked as such in
their doc comments.
-/

namespace Oww

/-- Severity levels of the Python `logging` calls that appear in the source. -/
inductive Level where
  | debug
  | info
  | warning
deriving DecidableEq, Repr

/-- One call to a logger: a severity level and the pre-formatted message. -/
structure LogEntry where
  level : Level
  msg : String
deriving DecidableEq, Repr

/-- A Python value as returned by `is_world_writable`: the function returns
either the integer `status.st_mode & 0o002` or the boolean `False`. -/
inductive PyVal where
  | int (n : Nat)
  | bool (b : Bool)
deriving DecidableEq, Repr

/-- Python truthiness, as used by `if is_world_writable(...)` at the call
site: an integer is truthy iff it is non-zero, a boolean is itself. -/
def PyVal.truthy : PyVal → Bool
  | PyVal.int n => n != 0
  | PyVal.bool b => b

/-- Failures an `os.stat` call may raise: `FileNotFoundError`, or some other
`OSError` such as `PermissionError` or an I/O error. -/
inductive StatErr where
  | fileNotFound
  | permissionDenied
  | ioError
deriving DecidableEq, Repr

/-- Rendering of `str(exception)` for a stat failure, used when the caught
exception is interpolated into a log message.  The concrete text is
OS-provided at runtime; fixed representative strings are used here. -/
def StatErr.str : StatErr → String
  | StatErr.fileNotFound => "[Errno 2] No such file or directory"
  | StatErr.permissionDenied => "[Errno 13] Permission denied"
  | StatErr.ioError => "[Errno 5] Input/output error"

/-- A stat oracle: what `os.stat` returns for each path, reporting the
`st_mode` bits on success. -/
def StatFn : Type := String → Except StatErr Nat

/-- Embedding of Python `os.path.join(a, b)` for two components: if `b` is
absolute it wins; otherwise `b` is appended to `a`, inserting a separator
unless `a` is empty or already ends in one. -/
def os_path_join (a b : String) : String :=
  if b.data.head? = some '/' then b
  else if a.data = [] ∨ a.data.getLast? = some '/' then a ++ b
  else a ++ "/" ++ b

/-- Embedding of Python set intersection `a.intersection(set(b))` on string
collections, as used by `has_interesting_events` (owwatcher.py line 204):
the elements of `a` that also occur in `b`. -/
def set_intersection (a b : List String) : List String :=
  a.filter (fun e => b.contains e)

/-- The fixed set of interesting inotify event names
(owwatcher.py line 20). -/
def INTERESTING_EVENTS : List String := ["IN_ATTRIB", "IN_CREATE", "IN_MOVED_TO"]

/-- Embedding of `has_interesting_events` (owwatcher.py lines 200-204):
true iff the intersection of the interesting events and the received event
types is non-empty. -/
def has_interesting_events (event_types : List String) (interesting_events : List String) : Bool :=
  decide (0 < (set_intersection interesting_events event_types).length)

/-- The observable behaviour of one `is_world_writable` call: the paths
passed to `os.stat`, the logger calls made, and either the returned Python
value or the exception that propagated. -/
structure WWResult where
  statPaths : List String
  logs : List LogEntry
  outcome : Except StatErr PyVal
deriving Repr

/-- Embedding of `is_world_writable` (owwatcher.py lines 206-216): join the
path, log at debug, stat the result and return `st_mode & 0o002`; a
`FileNotFoundError` is caught, logged at debug and turned into `False`;
any other stat failure propagates. -/
def is_world_writable (stat : StatFn) (path filename : String) : WWResult :=
  let full_path := os_path_join path filename
  let checking := LogEntry.mk Level.debug ("Checking if " ++ full_path ++ " is world writable")
  match stat full_path with
  | Except.ok st_mode =>
      ⟨[full_path], [checking], Except.ok (PyVal.int (st_mode &&& 0o002))⟩
  | Except.error StatErr.fileNotFound =>
      ⟨[full_path],
       [checking,
        LogEntry.mk Level.debug
          ("File was deleted before its permissions could be checked: " ++ StatErr.str StatErr.fileNotFound)],
       Except.ok (PyVal.bool false)⟩
  | Except.error e => ⟨[full_path], [checking], Except.error e⟩

/-- Modelled from the spec: the class-based PermissionChecker operation
`matches(directoryPath, entryName, mask)` (spec sections 4.1 and 4.3) is not
among the source files; per the spec it behaves exactly like
`is_world_writable` with the fixed world-writable bit replaced by the
configured mask, returning true iff `(mode bits AND mask) != 0`, with the
same treatment of a vanished path. -/
def matchesMask (stat : StatFn) (path filename : String) (mask : Nat) : WWResult :=
  let full_path := os_path_join path filename
  let checking := LogEntry.mk Level.debug ("Checking if " ++ full_path ++ " is world writable")
  match stat full_path with
  | Except.ok st_mode =>
      ⟨[full_path], [checking], Except.ok (PyVal.int (st_mode &&& mask))⟩
  | Except.error StatErr.fileNotFound =>
      ⟨[full_path],
       [checking,
        LogEntry.mk Level.debug
          ("File was deleted before its permissions could be checked: " ++ StatErr.str StatErr.fileNotFound)],
       Except.ok (PyVal.bool false)⟩
  | Except.error e => ⟨[full_path], [checking], Except.error e⟩

/-- Embedding of `send_ow_alert` (owwatcher.py lines 218-224): join the
path, decide file-vs-directory with `os.path.isdir` (an `isdir` oracle
here; for a vanished entry `os.path.isdir` reports false, so the message
defaults to "file"), and write the composed message at warning severity to
the local logger and to the syslog logger.  Returns the calls made on the
two loggers, local first. -/
def send_ow_alert (isdir : String → Bool) (path filename : String) :
    List LogEntry × List LogEntry :=
  let full_path := os_path_join path filename
  let file_or_dir := if isdir full_path then "directory" else "file"
  let msg := "Found world writable " ++ file_or_dir ++ ": " ++ full_path
  ([LogEntry.mk Level.warning msg], [LogEntry.mk Level.warning msg])

/-- The observable behaviour of one `process_event` call: stat calls made,
local-logger calls, syslog-logger calls, and normal or exceptional
completion. -/
structure ProcResult where
  statPaths : List String
  localLogs : List LogEntry
  syslogLogs : List LogEntry
  outcome : Except StatErr Unit
deriving Repr

/-- Embedding of `process_event` (owwatcher.py lines 187-197): if the
event's type names contain no interesting event, return after a debug log;
otherwise run `is_world_writable`, and when it is truthy, log at info and
send the alert to both sinks. -/
def process_event (stat : StatFn) (isdir : String → Bool)
    (event_types : List String) (path filename : String) : ProcResult :=
  let processing := LogEntry.mk Level.debug "Processing event"
  if has_interesting_events event_types INTERESTING_EVENTS then
    let ww := is_world_writable stat path filename
    match ww.outcome with
    | Except.error e =>
        ⟨ww.statPaths, processing :: ww.logs, [], Except.error e⟩
    | Except.ok v =>
        if v.truthy then
          let sent := send_ow_alert isdir path filename
          ⟨ww.statPaths,
           processing :: ww.logs
             ++ [LogEntry.mk Level.info "Found world writable file/directory. Sending alert."]
             ++ sent.1,
           sent.2, Except.ok ()⟩
        else
          ⟨ww.statPaths, processing :: ww.logs, [], Except.ok ()⟩
  else
    ⟨[], [processing, LogEntry.mk Level.debug "No relevant event types found"], [], Except.ok ()⟩

/-- An inotify event as unpacked by the watcher loop: the event type names,
the directory path and the entry name (the unused headers are omitted). -/
structure InEvent where
  event_types : List String
  path : String
  filename : String
deriving Repr

/-- One observable action of the watcher worker loop
(`watch_for_world_writable_files`, owwatcher.py lines 172-185). -/
inductive WAct where
  | logInfoMsg (msg : String)
  | establishWatch (dir : String)
  | handleEvent (e : InEvent)
  | sleepSecs (n : Nat)
  | logWarningMsg (msg : String)
deriving Repr

/-- Whether a worker-loop action establishes an inotify watch. -/
def WAct.isEstablish : WAct → Bool
  | WAct.establishWatch _ => true
  | _ => false

/-- One iteration of the `while True` loop of
`watch_for_world_writable_files` (owwatcher.py lines 173-185), for a
session in which the inotify stream delivers `events` and then raises
`TerminalEventException` with text `tex`: log at info, build the recursive
`InotifyTree` on `dir`, handle each delivered event in order, then — in the
exception handler — sleep one second and log a warning naming the cause. -/
def watch_iteration (dir : String) (events : List InEvent) (tex : String) : List WAct :=
  [WAct.logInfoMsg ("Setting up inotify watches on " ++ dir ++ " and its subdirectories"),
   WAct.establishWatch dir]
  ++ events.map WAct.handleEvent
  ++ [WAct.sleepSecs 1,
      WAct.logWarningMsg ("Caught a terminal inotify event (" ++ tex ++ "). Rebuilding inotify watchers...")]

/-- Embedding of `watch_for_world_writable_files` (owwatcher.py lines
172-185), unrolled over a finite prefix of the unbounded `while True` loop:
each element of `sessions` is one pass in which the stream yields some
events and then terminates with a `TerminalEventException`.  The loop body
always re-enters with the same `dir`. -/
def watch_for_world_writable_files (dir : String) :
    List (List InEvent × String) → List WAct
  | [] => []
  | (events, tex) :: rest =>
      watch_iteration dir events tex ++ watch_for_world_writable_files dir rest

/-- A Python exception raised by option validation. -/
inductive PyErr where
  | typeError (msg : String)
  | valueError (msg : String)
deriving DecidableEq, Repr

/-- Rendering of `str(ex)` for a validation exception: the message it was
constructed with. -/
def PyErr.str : PyErr → String
  | PyErr.typeError m => m
  | PyErr.valueError m => m

/-- The `port` value flowing into validation: an integer, or (as the unit
tests inject) a non-integer value, represented by its string. -/
inductive PortVal where
  | int (n : Int)
  | str (s : String)
deriving DecidableEq, Repr

/-- Error messages of owwatcher.py lines 15-17. -/
def INVALID_DIR_ERROR (d : String) : String :=
  "The directory \x27" ++ d ++ "\x27 does not exist"

/-- Error message of owwatcher.py line 16. -/
def INVALID_PORT_ERROR : String :=
  "Port must be an integer between 1 and 65535 inclusive."

/-- Error message of owwatcher.py line 17. -/
def INVALID_PROTOCOL_ERROR (p : String) : String :=
  "Unknown protocol \x27" ++ p ++ "\x27. Valid protocols are \x27udp\x27 or \x27tcp\x27."

/-- Embedding of `_raise_on_invalid_port` (owwatcher.py lines 149-154):
`TypeError` when the value is not an integer, `ValueError` when it is an
integer outside 1..65535. -/
def _raise_on_invalid_port : PortVal → Except PyErr Unit
  | PortVal.str _ => Except.error (PyErr.typeError INVALID_PORT_ERROR)
  | PortVal.int n =>
      if n < 1 ∨ n > 65535 then Except.error (PyErr.valueError INVALID_PORT_ERROR)
      else Except.ok ()

/-- Embedding of `_raise_on_invalid_dir` (owwatcher.py lines 156-158),
with `os.path.isdir` as an oracle: `ValueError` when the path is not an
existing directory. -/
def _raise_on_invalid_dir (isdir : String → Bool) (dir : String) : Except PyErr Unit :=
  if isdir dir then Except.ok ()
  else Except.error (PyErr.valueError (INVALID_DIR_ERROR dir))

/-- Embedding of `_raise_on_invalid_protocol` (owwatcher.py lines 160-162):
`ValueError` unless the protocol is "tcp" or "udp". -/
def _raise_on_invalid_protocol (protocol : String) : Except PyErr Unit :=
  if protocol = "tcp" ∨ protocol = "udp" then Except.ok ()
  else Except.error (PyErr.valueError (INVALID_PROTOCOL_ERROR protocol))

/-- The `for dir in dirs` loop of `_raise_on_invalid_options`
(owwatcher.py lines 145-146): validate each directory in order. -/
def raise_on_invalid_dirs (isdir : String → Bool) : List String → Except PyErr Unit
  | [] => Except.ok ()
  | d :: rest =>
      match _raise_on_invalid_dir isdir d with
      | Except.error e => Except.error e
      | Except.ok _ => raise_on_invalid_dirs isdir rest

/-- Embedding of `_raise_on_invalid_options` (owwatcher.py lines 143-147):
validate the port, then every directory, then the protocol; the first
failure propagates. -/
def _raise_on_invalid_options (isdir : String → Bool) (port : PortVal)
    (dirs : List String) (protocol : String) : Except PyErr Unit :=
  match _raise_on_invalid_port port with
  | Except.error e => Except.error e
  | Except.ok _ =>
      match raise_on_invalid_dirs isdir dirs with
      | Except.error e => Except.error e
      | Except.ok _ => _raise_on_invalid_protocol protocol

/-- The command-line arguments consumed by `_merge_args_and_config`
(owwatcher.py lines 109-140): absent options are `none`; `tcp` and `debug`
are store-true flags. -/
structure Args where
  dirs : Option String
  port : Option PortVal
  syslog_server : Option String
  tcp : Bool
  debug : Bool

/-- The DEFAULT section of the parsed config file, restricted to the keys
`_merge_args_and_config` reads; a key absent from the file is `none`, and
every present value is a raw string. -/
structure Config where
  dirs : Option String
  port : Option String
  syslog_server : Option String
  protocol : Option String

/-- The resolved options named tuple (owwatcher.py line 29). -/
structure Options where
  dirs : List String
  port : PortVal
  syslog_server : String
  protocol : String
  debug : Bool
deriving DecidableEq, Repr

/-- Embedding of Python `str.split(sep)` for a one-character separator, on
the character list of a string: splitting the empty string yields one empty
field, and each separator occurrence starts a new field. -/
def py_split_chars (sep : Char) : List Char → List (List Char)
  | [] => [[]]
  | c :: rest =>
      match py_split_chars sep rest with
      | [] => [[]]
      | g :: gs => if c = sep then [] :: g :: gs else (c :: g) :: gs

/-- Embedding of Python `str.split(sep)` for a one-character separator. -/
def py_split (s : String) (sep : Char) : List String :=
  (py_split_chars sep s.data).map String.mk

/-- Digits-to-number conversion used by `py_int_of_string`: `none` unless
the character list is a non-empty run of decimal digits. -/
def py_digits_to_nat : List Char → Option Nat
  | [] => none
  | [c] => if c.isDigit then some (c.toNat - '0'.toNat) else none
  | c :: rest => do
      let hd ← if c.isDigit then some (c.toNat - '0'.toNat) else none
      let tl ← py_digits_to_nat rest
      pure (hd * 10 ^ rest.length + tl)

/-- Embedding of Python `int(s)` for a base-10 string: surrounding
whitespace is ignored, one optional sign is allowed, and anything else
yields `none` (Python raises `ValueError`, which the caller turns into an
exception). -/
def py_int_of_string (s : String) : Option Int :=
  let t := ((s.data.dropWhile Char.isWhitespace).reverse.dropWhile Char.isWhitespace).reverse
  match t with
  | '-' :: ds => (py_digits_to_nat ds).map (fun n => -(n : Int))
  | '+' :: ds => (py_digits_to_nat ds).map (fun n => (n : Int))
  | ds => (py_digits_to_nat ds).map (fun n => (n : Int))

/-- Embedding of Python `str.lower()` for the ASCII range, as applied to the
configured protocol. -/
def py_lower (s : String) : String :=
  String.mk (s.data.map (fun c => if 'A' ≤ c ∧ c ≤ 'Z' then Char.ofNat (c.toNat + 32) else c))

/-- Embedding of `_merge_args_and_config` (owwatcher.py lines 109-140):
each option is taken from the command-line arguments when present, else
from the config file's DEFAULT section when present, else from the built-in
default; the merged options are then validated by
`_raise_on_invalid_options` before being returned.  The diagnostic `print`
calls to stdout are not modelled.  A config-file port that `int()` cannot
parse raises `ValueError`. -/
def _merge_args_and_config (isdir : String → Bool) (args : Args) (config : Config) :
    Except PyErr Options :=
  let dirs : List String :=
    match args.dirs with
    | some d => py_split d ','
    | none =>
        match config.dirs with
        | some d => py_split d ','
        | none => ["/tmp"]
  let portE : Except PyErr PortVal :=
    match args.port with
    | some p => Except.ok p
    | none =>
        match config.port with
        | some s =>
            match py_int_of_string s with
            | some n => Except.ok (PortVal.int n)
            | none =>
                Except.error
                  (PyErr.valueError ("invalid literal for int() with base 10: \x27" ++ s ++ "\x27"))
        | none => Except.ok (PortVal.int 514)
  match portE with
  | Except.error e => Except.error e
  | Except.ok port =>
      let syslog_server : String :=
        match args.syslog_server with
        | some s => s
        | none =>
            match config.syslog_server with
            | some s => s
            | none => "127.0.0.1"
      let protocol : String :=
        if args.tcp then "tcp"
        else
          match config.protocol with
          | some p => py_lower p
          | none => "udp"
      match _raise_on_invalid_options isdir port dirs protocol with
      | Except.error e => Except.error e
      | Except.ok _ => Except.ok (Options.mk dirs port syslog_server protocol args.debug)

/-- The operator-visible outcome of `main` (owwatcher.py lines 31-53):
lines printed to stderr, the exit status if the process exited, and the
directories for which a watcher thread was started. -/
structure MainOutcome where
  stderrLines : List String
  exitCode : Option Nat
  watchersStarted : List String
deriving DecidableEq, Repr

/-- Embedding of the option-handling part of `main` (owwatcher.py lines
31-53): argument parsing and config reading are external collaborators, so
`main_after_parse` starts from their results.  If merging/validation
raises, the error is printed to stderr and the process exits with status 1
before any watcher thread is started; otherwise one watcher thread per
configured directory is started. -/
def main_after_parse (isdir : String → Bool) (args : Args) (config : Config) : MainOutcome :=
  match _merge_args_and_config isdir args config with
  | Except.error ex => ⟨["Error: " ++ PyErr.str ex], some 1, []⟩
  | Except.ok options => ⟨[], none, options.dirs⟩

/-- Modelled from the spec: the PathTranslator component (spec sections 4.5
and 2) belongs to the class-based implementation, which is not among the
source files.  Helper: strip every leading separator from a path
(Python `path.lstrip('/')`). -/
def lstrip_sep (p : String) : String :=
  String.mk (p.data.dropWhile (fun c => c = '/'))

/-- Modelled from the spec: `toInternal(path)` (spec section 4.5) prefixes
the path with the fixed sandbox root when the deployment is sandboxed,
after stripping any leading separator from the user-given path; otherwise
it is the identity. -/
def toInternal (sandboxed : Bool) (sandboxRoot p : String) : String :=
  if sandboxed then os_path_join sandboxRoot (lstrip_sep p) else p

/-- Modelled from the spec: `toExternal(path)` (spec section 4.5) strips
the fixed sandbox root from an internally-observed path when that root is a
leading part of it, and otherwise returns the path unchanged; when not
sandboxed it is the identity. -/
def toExternal (sandboxed : Bool) (sandboxRoot p : String) : String :=
  if sandboxed then
    if sandboxRoot.data.isPrefixOf p.data then String.mk (p.data.drop sandboxRoot.data.length)
    else p
  else p

/-- C1: for every mode m, the permission check on an existing path returns
true iff `(m AND mask) != 0`; in particular, under the default
world-writable policy (mask `0o002`), modes `0o006`, `0o777`, `0o002` and
`0o666` yield true, and modes `0o004`, `0o770`, `0o641` and `0o665` yield
false. -/
theorem claim1_permission_check_mask (path filename : String) (m k : Nat) :
    ((matchesMask (fun _ => Except.ok m) path filename k).outcome
        = Except.ok (PyVal.int (m &&& k)))
    ∧ ((PyVal.int (m &&& k)).truthy = true ↔ (m &&& k) ≠ 0)
    ∧ ((is_world_writable (fun _ => Except.ok m) path filename).outcome
        = Except.ok (PyVal.int (m &&& 0o002)))
    ∧ ((is_world_writable (fun _ => Except.ok 0o006) path filename).outcome.map PyVal.truthy
        = Except.ok true)
    ∧ ((is_world_writable (fun _ => Except.ok 0o777) path filename).outcome.map PyVal.truthy
        = Except.ok true)
    ∧ ((is_world_writable (fun _ => Except.ok 0o002) path filename).outcome.map PyVal.truthy
        = Except.ok true)
    ∧ ((is_world_writable (fun _ => Except.ok 0o666) path filename).outcome.map PyVal.truthy
        = Except.ok true)
    ∧ ((is_world_writable (fun _ => Except.ok 0o004) path filename).outcome.map PyVal.truthy
        = Except.ok false)
    ∧ ((is_world_writable (fun _ => Except.ok 0o770) path filename).outcome.map PyVal.truthy
        = Except.ok false)
    ∧ ((is_world_writable (fun _ => Except.ok 0o641) path filename).outcome.map PyVal.truthy
        = Except.ok false)
    ∧ ((is_world_writable (fun _ => Except.ok 0o665) path filename).outcome.map PyVal.truthy
        = Except.ok false) := by
  refine ⟨rfl, ?_, rfl, rfl, rfl, rfl, rfl, rfl, rfl, rfl, rfl⟩
  simp [PyVal.truthy]

/-- C2: the classifier `has_interesting_events` accepts a list of event
type names iff it intersects the fixed set {IN_ATTRIB, IN_CREATE,
IN_MOVED_TO}; a record carrying only IN_ISDIR, or only IN_DELETE, is not
interesting. -/
theorem claim2_event_classifier (event_types : List String) :
    (has_interesting_events event_types INTERESTING_EVENTS = true
      ↔ ∃ e, e ∈ event_types ∧ e ∈ INTERESTING_EVENTS)
    ∧ has_interesting_events ["IN_ISDIR"] INTERESTING_EVENTS = false
    ∧ has_interesting_events ["IN_DELETE"] INTERESTING_EVENTS = false := by
  refine ⟨?_, by decide, by decide⟩
  simp only [has_interesting_events, set_intersection, decide_eq_true_eq,
    List.length_pos_iff_exists_mem, List.mem_filter, List.contains, List.elem_iff]
  constructor
  · rintro ⟨e, hI, hT⟩
    exact ⟨e, hT, hI⟩
  · rintro ⟨e, hT, hI⟩
    exact ⟨e, hI, hT⟩

/-- C3: if the joined path no longer exists when the permission check stats
it, the check returns false regardless of mode and mask, logs only at
debug severity, and never raises an exception for this cause. -/
theorem claim3_vanished_path_returns_false (stat : StatFn) (path filename : String)
    (h : stat (os_path_join path filename) = Except.error StatErr.fileNotFound) :
    (is_world_writable stat path filename).outcome = Except.ok (PyVal.bool false)
    ∧ (PyVal.bool false).truthy = false
    ∧ (is_world_writable stat path filename).logs.map LogEntry.level = [Level.debug, Level.debug]
    ∧ ∀ e, (is_world_writable stat path filename).outcome ≠ Except.error e := by
  simp only [is_world_writable]
  rw [h]
  exact ⟨rfl, rfl, rfl, fun e hc => Except.noConfusion hc⟩

/-- Witness for C3 at a concrete vanished path. -/
theorem claim3_vanished_path_returns_false_witness :
    (is_world_writable (fun _ => Except.error StatErr.fileNotFound) "/tmp" "gone").outcome
        = Except.ok (PyVal.bool false)
    ∧ (PyVal.bool false).truthy = false
    ∧ (is_world_writable (fun _ => Except.error StatErr.fileNotFound) "/tmp" "gone").logs.map
        LogEntry.level = [Level.debug, Level.debug]
    ∧ ∀ e, (is_world_writable (fun _ => Except.error StatErr.fileNotFound) "/tmp" "gone").outcome
        ≠ Except.error e :=
  claim3_vanished_path_returns_false (fun _ => Except.error StatErr.fileNotFound) "/tmp" "gone" rfl

/-- C4: any stat failure other than file-not-found is not swallowed by the
permission check: it propagates to the caller instead of being coerced to
the false outcome. -/
theorem claim4_unexpected_stat_failure_propagates (stat : StatFn) (path filename : String)
    (e : StatErr) (hne : e ≠ StatErr.fileNotFound)
    (h : stat (os_path_join path filename) = Except.error e) :
    (is_world_writable stat path filename).outcome = Except.error e := by
  simp only [is_world_writable]
  rw [h]
  cases e with
  | fileNotFound => exact absurd rfl hne
  | permissionDenied => rfl
  | ioError => rfl

/-- Helper: handled events are never watch establishments, so they
contribute nothing to a filter for establishments. -/
theorem filter_isEstablish_map_handleEvent (events : List InEvent) :
    (events.map WAct.handleEvent).filter WAct.isEstablish = [] := by
  induction events with
  | nil => rfl
  | cons e t ih => simp [List.filter_cons, WAct.isEstablish, ih]

/-- Helper: a watch establishment occurring in one loop iteration is on the
iteration's own root. -/
theorem establish_mem_watch_iteration (dir d : String) (events : List InEvent) (tex : String)
    (hd : WAct.establishWatch d ∈ watch_iteration dir events tex) : d = dir := by
  simp [watch_iteration] at hd
  exact hd

/-- Helper: each loop iteration establishes exactly one watch, on its own
root. -/
theorem filter_isEstablish_watch_iteration (dir : String) (events : List InEvent) (tex : String) :
    (watch_iteration dir events tex).filter WAct.isEstablish = [WAct.establishWatch dir] := by
  simp [watch_iteration, List.filter_append, filter_isEstablish_map_handleEvent,
    List.filter_cons, WAct.isEstablish]

/-- C5: for every record handled by `process_event`, the stat call runs
only if the record's event types are interesting, and an alert reaches the
syslog sink iff the record is interesting and its path is world
writable; uninteresting records cause no stat call and no alert. -/
theorem claim5_pipeline_gating (stat : StatFn) (isdir : String → Bool)
    (event_types : List String) (path filename : String) (m : Nat)
    (h : stat (os_path_join path filename) = Except.ok m) :
    ((process_event stat isdir event_types path filename).statPaths ≠ [] →
      has_interesting_events event_types INTERESTING_EVENTS = true)
    ∧ (has_interesting_events event_types INTERESTING_EVENTS = false →
        (process_event stat isdir event_types path filename).statPaths = []
        ∧ (process_event stat isdir event_types path filename).syslogLogs = [])
    ∧ ((process_event stat isdir event_types path filename).syslogLogs ≠ []
        ↔ has_interesting_events event_types INTERESTING_EVENTS = true ∧ (m &&& 0o002) ≠ 0) := by
  cases hI : has_interesting_events event_types INTERESTING_EVENTS with
  | false =>
      have hp : process_event stat isdir event_types path filename =
          ProcResult.mk []
            [LogEntry.mk Level.debug "Processing event",
             LogEntry.mk Level.debug "No relevant event types found"] [] (Except.ok ()) := by
        simp [process_event, hI]
      rw [hp]
      refine ⟨fun hc => absurd rfl hc, fun _ => ⟨rfl, rfl⟩, ?_⟩
      simp [hI]
  | true =>
      simp only [process_event, hI, if_true, is_world_writable]
      rw [h]
      by_cases hm : (m &&& 0o002) = 0
      · simp [PyVal.truthy, hm]
      · simp [PyVal.truthy, hm, send_ow_alert]

/-- Witness for C5 at a concrete interesting, world-writable record. -/
theorem claim5_pipeline_gating_witness :
    ((process_event (fun _ => Except.ok 0o006) (fun _ => false) ["IN_CREATE", "IN_ISDIR"]
        "/tmp" "f").statPaths ≠ [] →
      has_interesting_events ["IN_CREATE", "IN_ISDIR"] INTERESTING_EVENTS = true)
    ∧ (has_interesting_events ["IN_CREATE", "IN_ISDIR"] INTERESTING_EVENTS = false →
        (process_event (fun _ => Except.ok 0o006) (fun _ => false) ["IN_CREATE", "IN_ISDIR"]
            "/tmp" "f").statPaths = []
        ∧ (process_event (fun _ => Except.ok 0o006) (fun _ => false) ["IN_CREATE", "IN_ISDIR"]
            "/tmp" "f").syslogLogs = [])
    ∧ ((process_event (fun _ => Except.ok 0o006) (fun _ => false) ["IN_CREATE", "IN_ISDIR"]
            "/tmp" "f").syslogLogs ≠ []
        ↔ has_interesting_events ["IN_CREATE", "IN_ISDIR"] INTERESTING_EVENTS = true
          ∧ ((0o006 : Nat) &&& 0o002) ≠ 0) :=
  claim5_pipeline_gating (fun _ => Except.ok 0o006) (fun _ => false) ["IN_CREATE", "IN_ISDIR"]
    "/tmp" "f" 0o006 rfl

/-- C6: the alert operation composes exactly the message
"Found world writable <file|directory>: <joined path>", choosing the kind
by a fresh `isdir` query and defaulting to "file" when the entry has
vanished (so `isdir` reports false), and writes that same single message
at warning severity to both the local sink and the syslog sink. -/
theorem claim6_alert_message (isdir : String → Bool) (path filename : String) :
    (send_ow_alert isdir path filename =
      ([LogEntry.mk Level.warning
          ("Found world writable "
            ++ (if isdir (os_path_join path filename) then "directory" else "file")
            ++ ": " ++ os_path_join path filename)],
       [LogEntry.mk Level.warning
          ("Found world writable "
            ++ (if isdir (os_path_join path filename) then "directory" else "file")
            ++ ": " ++ os_path_join path filename)]))
    ∧ (isdir (os_path_join path filename) = false →
        send_ow_alert isdir path filename =
          ([LogEntry.mk Level.warning ("Found world writable file: " ++ os_path_join path filename)],
           [LogEntry.mk Level.warning ("Found world writable file: " ++ os_path_join path filename)])) := by
  refine ⟨rfl, fun hv => ?_⟩
  simp only [send_ow_alert, hv, Bool.false_eq_true, if_false]
  rfl

/-- Witness for C6 at a concrete vanished entry. -/
theorem claim6_alert_message_witness :
    send_ow_alert (fun _ => false) "/tmp" "gone" =
      ([LogEntry.mk Level.warning "Found world writable file: /tmp/gone"],
       [LogEntry.mk Level.warning "Found world writable file: /tmp/gone"]) :=
  (claim6_alert_message (fun _ => false) "/tmp" "gone").2 rfl

/-- C7: whenever the inotify stream terminates with its terminal condition,
the worker sleeps one second, logs a warning naming the cause, and
re-establishes a recursive watch on the same root; for every number of
terminal-event sessions the trace re-establishes exactly that many watches,
all on the same root, so the worker never abandons its configured root. -/
theorem claim7_recovery_loop (dir : String) (sessions : List (List InEvent × String)) :
    (∀ d, WAct.establishWatch d ∈ watch_for_world_writable_files dir sessions → d = dir)
    ∧ ((watch_for_world_writable_files dir sessions).filter WAct.isEstablish).length
        = sessions.length
    ∧ (∀ events tex rest,
        watch_for_world_writable_files dir ((events, tex) :: rest) =
          [WAct.logInfoMsg ("Setting up inotify watches on " ++ dir ++ " and its subdirectories"),
           WAct.establishWatch dir]
          ++ events.map WAct.handleEvent
          ++ ([WAct.sleepSecs 1,
               WAct.logWarningMsg
                 ("Caught a terminal inotify event (" ++ tex ++ "). Rebuilding inotify watchers...")]
             ++ watch_for_world_writable_files dir rest)) := by
  refine ⟨?_, ?_, ?_⟩
  · induction sessions with
    | nil => intro d hd; simp [watch_for_world_writable_files] at hd
    | cons p t ih =>
        rcases p with ⟨events, tex⟩
        intro d hd
        simp only [watch_for_world_writable_files] at hd
        rcases List.mem_append.mp hd with h1 | h2
        · exact establish_mem_watch_iteration dir d events tex h1
        · exact ih d h2
  · induction sessions with
    | nil => rfl
    | cons p t ih =>
        rcases p with ⟨events, tex⟩
        rw [show watch_for_world_writable_files dir ((events, tex) :: t) =
              watch_iteration dir events tex ++ watch_for_world_writable_files dir t from rfl,
          List.filter_append, List.length_append, filter_isEstablish_watch_iteration, ih]
        simp [Nat.add_comm]
  · intro events tex rest
    simp [watch_for_world_writable_files, watch_iteration]

/-- Witness for C7 on a one-session trace. -/
theorem claim7_recovery_loop_witness :
    ((watch_for_world_writable_files "/tmp"
        [(([] : List InEvent), "IN_UNMOUNT")]).filter WAct.isEstablish).length = 1 :=
  (claim7_recovery_loop "/tmp" [(([] : List InEvent), "IN_UNMOUNT")]).2.1

/-- C8: option validation raises before any worker starts: a non-integer
port raises `TypeError`, an integer port outside 1..65535 raises
`ValueError`, a missing directory raises `ValueError`, a protocol other
than "tcp" or "udp" raises `ValueError`; and on any such error `main`
prints the error to stderr and exits with status 1 without starting any
watcher. -/
theorem claim8_option_validation :
    (∀ s, _raise_on_invalid_port (PortVal.str s)
        = Except.error (PyErr.typeError INVALID_PORT_ERROR))
    ∧ (∀ n : Int, (n < 1 ∨ n > 65535) →
        _raise_on_invalid_port (PortVal.int n)
          = Except.error (PyErr.valueError INVALID_PORT_ERROR))
    ∧ (∀ (isdir : String → Bool) (d : String), isdir d = false →
        _raise_on_invalid_dir isdir d = Except.error (PyErr.valueError (INVALID_DIR_ERROR d)))
    ∧ (∀ p, p ≠ "tcp" → p ≠ "udp" →
        _raise_on_invalid_protocol p = Except.error (PyErr.valueError (INVALID_PROTOCOL_ERROR p)))
    ∧ (∀ (isdir : String → Bool) (args : Args) (config : Config) (ex : PyErr),
        _merge_args_and_config isdir args config = Except.error ex →
        main_after_parse isdir args config
          = MainOutcome.mk ["Error: " ++ PyErr.str ex] (some 1) []) := by
  refine ⟨fun s => rfl, fun n hn => ?_, fun isdir d hd => ?_, fun p h1 h2 => ?_,
    fun isdir args config ex h => ?_⟩
  · simp only [_raise_on_invalid_port]
    rw [if_pos hn]
  · unfold _raise_on_invalid_dir
    rw [if_neg]
    rw [hd]
    exact Bool.false_ne_true
  · unfold _raise_on_invalid_protocol
    rw [if_neg]
    rintro (hc | hc)
    · exact h1 hc
    · exact h2 hc
  · unfold main_after_parse
    rw [h]

/-- Witness for C8: a non-integer port makes the process print the error
and exit with status 1 without starting a watcher. -/
theorem claim8_option_validation_witness :
    main_after_parse (fun _ => true)
        (Args.mk none (some (PortVal.str "iv")) none false false)
        (Config.mk none none none none)
      = MainOutcome.mk ["Error: " ++ INVALID_PORT_ERROR] (some 1) [] :=
  claim8_option_validation.2.2.2.2 (fun _ => true)
    (Args.mk none (some (PortVal.str "iv")) none false false)
    (Config.mk none none none none) (PyErr.typeError INVALID_PORT_ERROR) rfl

/-- Counterexample to C9 as stated: the round-trip law fails for a path
with no leading separator — translating "etc" into the sandbox and back
yields "/etc", not "etc". -/
theorem claim9_round_trip_counterexample :
    toExternal true "/var/lib/snapd/hostfs"
        (toInternal true "/var/lib/snapd/hostfs" "etc") ≠ "etc" := by
  decide

/-- C9 (amended): for every sandbox root that is non-empty and does not end
in a separator, and every path of the form "/" ++ rest with rest not
starting in a separator (an absolute path with a single leading separator,
the form configured roots take), `toExternal (toInternal P) = P`; and when
sandbox mode is off, both `toInternal` and `toExternal` are the identity on
every path. -/
theorem claim9_round_trip_amended (sandboxRoot rest p : String)
    (hroot_ne : sandboxRoot.data ≠ [])
    (hroot_last : sandboxRoot.data.getLast? ≠ some '/')
    (hrest : rest.data.head? ≠ some '/') :
    toExternal true sandboxRoot (toInternal true sandboxRoot ("/" ++ rest)) = "/" ++ rest
    ∧ toInternal false sandboxRoot p = p
    ∧ toExternal false sandboxRoot p = p := by
  refine ⟨?_, rfl, rfl⟩
  have hdata : ("/" ++ rest).data = '/' :: rest.data := by
    rw [String.data_append]
    rfl
  have hdrop : rest.data.dropWhile (fun c => decide (c = '/')) = rest.data := by
    cases hc : rest.data with
    | nil => rfl
    | cons c t =>
        have hc' : ¬ (decide (c = '/') = true) := by
          simp only [decide_eq_true_eq]
          intro hcc
          exact hrest (by rw [hc, hcc]; rfl)
        rw [List.dropWhile_cons, if_neg hc']
  have hl : lstrip_sep ("/" ++ rest) = rest := by
    unfold lstrip_sep
    rw [hdata, List.dropWhile_cons, if_pos (by simp), hdrop]
  have hjoin : os_path_join sandboxRoot rest = sandboxRoot ++ "/" ++ rest := by
    unfold os_path_join
    rw [if_neg hrest, if_neg]
    rintro (hc | hc)
    · exact hroot_ne hc
    · exact hroot_last hc
  have hti : toInternal true sandboxRoot ("/" ++ rest) = sandboxRoot ++ "/" ++ rest := by
    unfold toInternal
    rw [if_pos rfl, hl, hjoin]
  have hdata2 : (sandboxRoot ++ "/" ++ rest).data = sandboxRoot.data ++ ('/' :: rest.data) := by
    rw [String.data_append, String.data_append, List.append_assoc]
    rfl
  rw [hti]
  unfold toExternal
  rw [if_pos rfl]
  have hpre : sandboxRoot.data.isPrefixOf (sandboxRoot ++ "/" ++ rest).data = true := by
    rw [hdata2]
    exact List.isPrefixOf_iff_prefix.mpr (List.prefix_append _ _)
  rw [if_pos hpre, hdata2, List.drop_left, ← hdata]

/-- Witness for C9 (amended) at the snap sandbox root and the path "/etc". -/
theorem claim9_round_trip_amended_witness :
    (toExternal true "/var/lib/snapd/hostfs"
        (toInternal true "/var/lib/snapd/hostfs" ("/" ++ "etc")) = "/" ++ "etc")
    ∧ toInternal false "/var/lib/snapd/hostfs" "/x" = "/x"
    ∧ toExternal false "/var/lib/snapd/hostfs" "/x" = "/x" :=
  claim9_round_trip_amended "/var/lib/snapd/hostfs" "etc" "/x" (by decide) (by decide) (by decide)

/-- C10: with neither command-line arguments nor config file supplying a
value, option merging resolves dirs = ["/tmp"], port = 514,
syslog_server = "127.0.0.1", protocol = "udp"; and whenever both sides
supply a value for the same option, the command-line value wins. -/
theorem claim10_option_merge :
    (∀ (isdir : String → Bool) (debug : Bool), isdir "/tmp" = true →
      _merge_args_and_config isdir (Args.mk none none none false debug)
          (Config.mk none none none none)
        = Except.ok (Options.mk ["/tmp"] (PortVal.int 514) "127.0.0.1" "udp" debug))
    ∧ (∀ (isdir : String → Bool) (args : Args) (config : Config) (o : Options),
        _merge_args_and_config isdir args config = Except.ok o →
        (∀ s, args.dirs = some s → o.dirs = py_split s ',')
        ∧ (∀ pv, args.port = some pv → o.port = pv)
        ∧ (∀ s, args.syslog_server = some s → o.syslog_server = s)
        ∧ (args.tcp = true → o.protocol = "tcp")) := by
  constructor
  · intro isdir debug h
    have h3 : _raise_on_invalid_dir isdir "/tmp" = Except.ok () := by
      unfold _raise_on_invalid_dir
      rw [if_pos h]
    have h4 : raise_on_invalid_dirs isdir ["/tmp"] = Except.ok () := by
      simp [raise_on_invalid_dirs, h3]
    have h2 : _raise_on_invalid_protocol "udp" = Except.ok () := by
      unfold _raise_on_invalid_protocol
      rw [if_pos (Or.inr rfl)]
    have h5 : _raise_on_invalid_options isdir (PortVal.int 514) ["/tmp"] "udp"
        = Except.ok () := by
      simp [_raise_on_invalid_options, _raise_on_invalid_port, h4, h2]
    simp [_merge_args_and_config, h5]
  · intro isdir args config o h
    simp only [_merge_args_and_config] at h
    split at h
    · exact absurd h (by simp)
    · rename_i port heq
      split at h
      · exact absurd h (by simp)
      · rw [Except.ok.injEq] at h
        subst h
        refine ⟨?_, ?_, ?_, ?_⟩
        · intro s hs
          simp only [hs]
        · intro pv hpv
          rw [hpv] at heq
          simp only [Except.ok.injEq] at heq
          simp only [heq]
        · intro s hs
          simp only [hs]
        · intro ht
          simp only [ht, if_true]

/-- Witness for C10 with empty arguments and config over a filesystem where
"/tmp" exists. -/
theorem claim10_option_merge_witness :
    _merge_args_and_config (fun _ => true) (Args.mk none none none false false)
        (Config.mk none none none none)
      = Except.ok (Options.mk ["/tmp"] (PortVal.int 514) "127.0.0.1" "udp" false) :=
  claim10_option_merge.1 (fun _ => true) false rfl

/-- Witness for C4 at a concrete permission-denied failure. -/
theorem claim4_unexpected_stat_failure_propagates_witness :
    (is_world_writable (fun _ => Except.error StatErr.permissionDenied) "/tmp" "secret").outcome
      = Except.error StatErr.permissionDenied :=
  claim4_unexpected_stat_failure_propagates (fun _ => Except.error StatErr.permissionDenied)
    "/tmp" "secret" StatErr.permissionDenied (by simp) rfl

end Oww
